import Mathlib

/-!
Verification development for the `tools-go-token` credential library.

The Go services (`service/otp.go`, `service/passwordReset.go`,
`service/refreshToken.go`, `service/accessToken.go`) are shallowly embedded:
the Redis store becomes a function from structured keys to entries carrying a
value string and an optional TTL; every Redis command consumes one flag from an
explicit fault trace, so store failures and the best-effort error-swallowing
paths of the Go code are expressible.  Nondeterministic collaborators
(`lib.GenerateOTP`, `lib.GenerateRandomString`, bcrypt, `uuid.New`, the clock)
are modelled by passing their outputs as explicit parameters.
-/

namespace GoToken

/-- Structured Redis keys.  The Go code builds string keys
`"otp:{userID}"`, `"otp:attempts:{userID}"`, `"password_reset:{userID}"` and
`"refresh:{userID}:{token}"` with `fmt.Sprintf`; since the four formats are
pairwise non-overlapping (an integer never starts with `attempts:`, and
generated token values draw from an alphanumeric-plus-hyphen alphabet that
excludes `:`), the formatting is injective and the keys are faithfully
represented by this inductive. -/
inductive Key where
  | otp (userID : Int)
  | otpAttempts (userID : Int)
  | passwordReset (userID : String)
  | refresh (userID : Int) (token : String)
deriving DecidableEq

/-- A stored Redis entry: the value string plus its TTL
(`none` = no expiry attached, a key that never expires). -/
structure Entry where
  val : String
  ttl : Option Nat
deriving DecidableEq

/-- The Redis key space: a partial map from keys to entries. -/
def Store := Key → Option Entry

def Store.get (s : Store) (k : Key) : Option Entry := s k

/-- Redis `SET key value ttl`. -/
def Store.set (s : Store) (k : Key) (v : String) (ttl : Option Nat) : Store :=
  fun k2 => if k2 = k then some ⟨v, ttl⟩ else s k2

/-- Redis `DEL key` (idempotent: deleting an absent key is a no-op). -/
def Store.del (s : Store) (k : Key) : Store :=
  fun k2 => if k2 = k then none else s k2

def Store.empty : Store := fun _ => none

/-- State threaded through a service call: the store plus a fault trace.
Each Redis command consumes one flag; `true` means that command fails with a
store/network error.  An exhausted trace means no further faults. -/
structure Sys where
  store : Store
  faults : List Bool

def Sys.takeFault (m : Sys) : Bool × Sys :=
  match m.faults with
  | [] => (false, m)
  | b :: rest => (b, { m with faults := rest })

/-- Error kinds returned by the services (Go returns `error` values;
these constructors stand for the distinct error messages/kinds). -/
inductive Err where
  | invalidUserID
  | invalidOTP
  | corruptedAttempts
  | maxAttemptsExceeded
  | storeFailure
  | failedResetAttempts (cause : Err)
  | incrNotInteger
  | tokenNotFound
  | tokenMismatch
  | emptyToken
  | tokenTooLong
deriving DecidableEq

/-- `db.Get(ctx, key).Result()`: `.ok none` stands for `redis.Nil`. -/
def rGet (k : Key) (m : Sys) : Except Err (Option String) × Sys :=
  let (b, m2) := m.takeFault
  if b then (.error .storeFailure, m2)
  else (.ok ((Store.get m2.store k).map Entry.val), m2)

/-- `db.Set(ctx, key, value, ttl).Err()`. -/
def rSet (k : Key) (v : String) (ttl : Nat) (m : Sys) : Except Err Unit × Sys :=
  let (b, m2) := m.takeFault
  if b then (.error .storeFailure, m2)
  else (.ok (), { m2 with store := Store.set m2.store k v (some ttl) })

/-- `db.Del(ctx, key).Err()`. -/
def rDel (k : Key) (m : Sys) : Except Err Unit × Sys :=
  let (b, m2) := m.takeFault
  if b then (.error .storeFailure, m2)
  else (.ok (), { m2 with store := Store.del m2.store k })

/-- `db.Exists(ctx, key).Result()` (count of existing keys, here 0 or 1). -/
def rExists (k : Key) (m : Sys) : Except Err Bool × Sys :=
  let (b, m2) := m.takeFault
  if b then (.error .storeFailure, m2)
  else (.ok (Store.get m2.store k).isSome, m2)

/-- Decimal digit-string parser (helper for `atoi`). -/
def digitsToNat (ds : List Char) : Option Nat :=
  if ds = [] then none
  else if ds.all Char.isDigit then
    some (ds.foldl (fun n c => n * 10 + (c.toNat - 48)) 0)
  else none

/-- Model of Go `strconv.Atoi` (also of the integer parse Redis INCR
performs): an optional sign followed by at least one decimal digit. -/
def atoi (s : String) : Option Int :=
  match s.toList with
  | '-' :: ds => (digitsToNat ds).map (fun n => -(n : Int))
  | '+' :: ds => (digitsToNat ds).map (fun n => (n : Int))
  | ds => (digitsToNat ds).map (fun n => (n : Int))

/-- `db.Incr(ctx, key).Result()`: Redis INCR parses the stored value as an
integer and increments it, preserving any TTL already on the key; on an
absent key it creates the key with value 1 and NO expiry. -/
def rIncr (k : Key) (m : Sys) : Except Err Int × Sys :=
  let (b, m2) := m.takeFault
  if b then (.error .storeFailure, m2)
  else
    match Store.get m2.store k with
    | none => (.ok 1, { m2 with store := Store.set m2.store k "1" none })
    | some e =>
      match atoi e.val with
      | none => (.error .incrNotInteger, m2)
      | some n => (.ok (n + 1), { m2 with store := Store.set m2.store k (toString (n + 1)) e.ttl })

/-- `validation.OTPValidation.ISOTPValid`: exactly 6 characters, all ASCII
digits (the Go regex is `^\d{6}$`). -/
def isOTPValid (otp : String) : Bool :=
  otp.length == 6 && otp.toList.all Char.isDigit

/-- `validation.IsIncomingTokenValid`: non-empty and at most `maxLen`. -/
def isIncomingTokenValid (token : String) (maxLen : Nat) : Except Err Unit :=
  if token.length = 0 then .error .emptyToken
  else if token.length > maxLen then .error .tokenTooLong
  else .ok ()

/-- The bcrypt collaborator (`lib.PasswordHashInterface`): one-way hash and
compare.  Theorems take the properties they need of a concrete hasher as
hypotheses. -/
structure Hasher where
  hash : String → String
  checkHash : String → String → Bool

/-- A transparent stand-in hasher used for concrete evaluations. -/
def idHasher : Hasher := ⟨fun c => c, fun c h => c == h⟩

/-- `maxAttempts` constant from `service/otp.go`. -/
def maxAttempts : Int := 5

def otpKey (userID : Int) : Key := .otp userID
def otpAttemptsKey (userID : Int) : Key := .otpAttempts userID
def passwordResetKey (userID : String) : Key := .passwordReset userID
def refreshKey (userID : Int) (token : String) : Key := .refresh userID token

def passwordResetTokenMaxLength : Nat := 32
def refreshTokenMaxLength : Nat := 255

/-- `OTPService` after construction: the hasher and the pre-parsed TTL. -/
structure OTPService where
  hasher : Hasher
  duration : Nat

/-- `OTPService.resetAttempts`: `SET otp:attempts:{userID} 0 EX ttl`. -/
def OTPService.resetAttempts (svc : OTPService) (userID : Int) (m : Sys) :
    Except Err Unit × Sys :=
  if userID ≤ 0 then (.error .invalidUserID, m)
  else rSet (otpAttemptsKey userID) "0" svc.duration m

/-- `OTPService.getAttempts`: `GET otp:attempts:{userID}`, mapping
`redis.Nil` to the empty string. -/
def OTPService.getAttempts (_svc : OTPService) (userID : Int) (m : Sys) :
    Except Err String × Sys :=
  if userID ≤ 0 then (.error .invalidUserID, m)
  else
    match rGet (otpAttemptsKey userID) m with
    | (.error e, m2) => (.error e, m2)
    | (.ok none, m2) => (.ok "", m2)
    | (.ok (some v), m2) => (.ok v, m2)

/-- `OTPService.incrementAttempts`: existence check first; if absent, one
`SET key 1 EX ttl` (TTL attached in the creating write); if present, one
atomic `INCR`. -/
def OTPService.incrementAttempts (svc : OTPService) (userID : Int) (m : Sys) :
    Except Err Int × Sys :=
  if userID ≤ 0 then (.error .invalidUserID, m)
  else
    match rExists (otpAttemptsKey userID) m with
    | (.error e, m2) => (.error e, m2)
    | (.ok ex, m2) =>
      if ex = false then
        match rSet (otpAttemptsKey userID) "1" svc.duration m2 with
        | (.error e, m3) => (.error e, m3)
        | (.ok _, m3) => (.ok 1, m3)
      else
        rIncr (otpAttemptsKey userID) m2

/-- `OTPService.revokeAttempts`: `DEL otp:attempts:{userID}`. -/
def OTPService.revokeAttempts (_svc : OTPService) (userID : Int) (m : Sys) :
    Except Err Unit × Sys :=
  if userID ≤ 0 then (.error .invalidUserID, m)
  else rDel (otpAttemptsKey userID) m

/-- `OTPService.RevokeOTP`: delete the code key, then the attempts key. -/
def OTPService.RevokeOTP (svc : OTPService) (userID : Int) (m : Sys) :
    Except Err Unit × Sys :=
  if userID ≤ 0 then (.error .invalidUserID, m)
  else
    match rDel (otpKey userID) m with
    | (.error e, m2) => (.error e, m2)
    | (.ok _, m2) => svc.revokeAttempts userID m2

/-- `OTPService.CreateOTP`.  The `otp` parameter is the output of the random
collaborator `lib.GenerateOTP()`.  Writes the bcrypt hash with TTL, then
resets the attempts counter; if the reset fails, deletes the just-written
hash (best effort, the delete error is discarded) and surfaces the reset
error wrapped. -/
def OTPService.CreateOTP (svc : OTPService) (userID : Int) (otp : String) (m : Sys) :
    Except Err String × Sys :=
  if userID ≤ 0 then (.error .invalidUserID, m)
  else
    let hash := svc.hasher.hash otp
    match rSet (otpKey userID) hash svc.duration m with
    | (.error e, m2) => (.error e, m2)
    | (.ok _, m2) =>
      match svc.resetAttempts userID m2 with
      | (.error e, m3) =>
        let (_, m4) := rDel (otpKey userID) m3
        (.error (.failedResetAttempts e), m4)
      | (.ok _, m3) => (.ok otp, m3)

/-- The `if attemptsStr != "" { Atoi; >= maxAttempts? }` block of
`OTPService.VerifyOTP`. -/
def OTPService.attemptsGuard (attemptsStr : String) : Except Err Unit :=
  if attemptsStr ≠ "" then
    match atoi attemptsStr with
    | none => .error .corruptedAttempts
    | some attempts =>
      if attempts ≥ maxAttempts then .error .maxAttemptsExceeded else .ok ()
  else .ok ()

/-- `OTPService.VerifyOTP`.  In Go the function returns `(bool, error)`; every
error return carries `false`, so `.error e` stands for `(false, e)` and
`.ok b` for `(b, nil)`. -/
def OTPService.VerifyOTP (svc : OTPService) (userID : Int) (otp : String) (m : Sys) :
    Except Err Bool × Sys :=
  if userID ≤ 0 then (.error .invalidUserID, m)
  else if isOTPValid otp = false then (.error .invalidOTP, m)
  else
    match svc.getAttempts userID m with
    | (.error e, m2) => (.error e, m2)
    | (.ok attemptsStr, m2) =>
      match OTPService.attemptsGuard attemptsStr with
      | .error e => (.error e, m2)
      | .ok _ =>
        match rGet (otpKey userID) m2 with
        | (.error e, m3) => (.error e, m3)
        | (.ok none, m3) =>
          -- OTP not found: increment attempts (best effort, error ignored)
          let (_, m4) := svc.incrementAttempts userID m3
          (.ok false, m4)
        | (.ok (some val), m3) =>
          if svc.hasher.checkHash otp val = false then
            -- wrong OTP: increment attempts (best effort, error ignored)
            let (_, m4) := svc.incrementAttempts userID m3
            (.ok false, m4)
          else
            match svc.RevokeOTP userID m3 with
            | (.error e, m4) => (.error e, m4)
            | (.ok _, m4) => (.ok true, m4)

/-- `PasswordResetService` after construction (TTL already parsed). -/
structure PasswordResetService where
  duration : Nat

/-- `PasswordResetService.CreatePasswordResetToken`; the `token` parameter is
the output of `lib.GenerateRandomString(32)`.  One unconditional `SET` on the
subject-scoped key. -/
def PasswordResetService.CreatePasswordResetToken (prs : PasswordResetService)
    (userID : String) (token : String) (m : Sys) : Except Err String × Sys :=
  if userID = "" then (.error .invalidUserID, m)
  else
    match rSet (passwordResetKey userID) token prs.duration m with
    | (.error e, m2) => (.error e, m2)
    | (.ok _, m2) => (.ok token, m2)

/-- `PasswordResetService.VerifyPasswordResetToken`: absent key is `false`,
otherwise exact string equality with the stored token. -/
def PasswordResetService.VerifyPasswordResetToken (_prs : PasswordResetService)
    (userID : String) (token : String) (m : Sys) : Except Err Bool × Sys :=
  if userID = "" then (.error .invalidUserID, m)
  else
    match isIncomingTokenValid token passwordResetTokenMaxLength with
    | .error e => (.error e, m)
    | .ok _ =>
      match rGet (passwordResetKey userID) m with
      | (.error e, m2) => (.error e, m2)
      | (.ok none, m2) => (.ok false, m2)
      | (.ok (some v), m2) => (.ok (v == token), m2)

/-- `PasswordResetService.RevokePasswordResetToken`: fetch first; absent →
NotFound error; non-matching → Mismatch error; only on match delete. -/
def PasswordResetService.RevokePasswordResetToken (_prs : PasswordResetService)
    (userID : String) (token : String) (m : Sys) : Except Err Unit × Sys :=
  if userID = "" then (.error .invalidUserID, m)
  else
    match isIncomingTokenValid token passwordResetTokenMaxLength with
    | .error e => (.error e, m)
    | .ok _ =>
      match rGet (passwordResetKey userID) m with
      | (.error e, m2) => (.error e, m2)
      | (.ok none, m2) => (.error .tokenNotFound, m2)
      | (.ok (some storedToken), m2) =>
        if storedToken ≠ token then (.error .tokenMismatch, m2)
        else rDel (passwordResetKey userID) m2

/-- `RefreshTokenService` (Redis implementation, current since v2.0.0). -/
structure RefreshTokenService where
  duration : Nat

/-- `RefreshTokenService.CreateRefreshToken`; the `token` parameter is the
output of `lib.GenerateRandomString(255)`.  One `SET` of the composite key
`refresh:{userID}:{token}` to the marker value "1". -/
def RefreshTokenService.CreateRefreshToken (rts : RefreshTokenService)
    (userID : Int) (token : String) (m : Sys) : Except Err String × Sys :=
  if userID ≤ 0 then (.error .invalidUserID, m)
  else
    match rSet (refreshKey userID token) "1" rts.duration m with
    | (.error e, m2) => (.error e, m2)
    | (.ok _, m2) => (.ok token, m2)

/-- `RefreshTokenService.VerifyRefreshToken`: exact-key lookup; absent →
`false` without error; present → value equals the marker "1". -/
def RefreshTokenService.VerifyRefreshToken (_rts : RefreshTokenService)
    (userID : Int) (token : String) (m : Sys) : Except Err Bool × Sys :=
  if userID ≤ 0 then (.error .invalidUserID, m)
  else
    match isIncomingTokenValid token refreshTokenMaxLength with
    | .error e => (.error e, m)
    | .ok _ =>
      match rGet (refreshKey userID token) m with
      | (.error e, m2) => (.error e, m2)
      | (.ok none, m2) => (.ok false, m2)
      | (.ok (some v), m2) => (.ok (v == "1"), m2)

/-- `RefreshTokenService.RevokeRefreshToken`: one `DEL` of the exact key. -/
def RefreshTokenService.RevokeRefreshToken (_rts : RefreshTokenService)
    (token : String) (userID : Int) (m : Sys) : Except Err Unit × Sys :=
  if userID ≤ 0 then (.error .invalidUserID, m)
  else
    match isIncomingTokenValid token refreshTokenMaxLength with
    | .error e => (.error e, m)
    | .ok _ => rDel (refreshKey userID token) m

/-- Configuration consumed by `AccessTokenService` (issuer, HS256 secret,
and the expiry duration already parsed from `JWTExpiry`, in seconds). -/
structure Config where
  issuer : String
  jwtSecret : String
  jwtExpiry : Nat
deriving DecidableEq

/-- `model/refresh-token.AuthUser` (final string-subject design). -/
structure AuthUser where
  id : String
  email : String
deriving DecidableEq

/-- `model/refresh-token.Claim`: `KeyType` and `Email` custom fields plus the
registered claims the service fills in.  Timestamps are seconds. -/
structure Claim where
  keyType : String
  email : String
  expiresAt : Nat
  issuedAt : Nat
  notBefore : Nat
  issuer : String
  subject : String
  jti : String
deriving DecidableEq

/-- A JWT as seen by the verifier: either a malformed string, or a
structurally well-formed HS256 token carrying its claims and the secret it
was signed with (signature validity = signing secret equals the verifying
secret). -/
inductive JWT where
  | malformed
  | signed (claim : Claim) (secret : String)
deriving DecidableEq

/-- The 5-second leeway passed via `jwt.WithLeeway(5*time.Second)`. -/
def jwtLeeway : Nat := 5

inductive JWTErr where
  | malformed
  | signatureInvalid
  | expired
  | notYetValid
  | invalidClaim
deriving DecidableEq

/-- Model of `jwt.ParseWithClaims` (golang-jwt/jwt v5) with HS256 and leeway:
the signature is verified first (failure returns before claims validation);
then the registered time claims are validated with leeway, expiry first.
On `ErrTokenExpired` the parsed claims are still populated on the returned
token. -/
def jwtParseWithClaims (tok : JWT) (secret : String) (now : Nat) :
    Option Claim × Option JWTErr :=
  match tok with
  | .malformed => (none, some .malformed)
  | .signed c s =>
    if s ≠ secret then (none, some .signatureInvalid)
    else if c.expiresAt + jwtLeeway ≤ now then (some c, some .expired)
    else if now + jwtLeeway < c.notBefore then (some c, some .notYetValid)
    else (some c, none)

/-- `AccessTokenService.CreateAccessToken`: builds the claim set from the
user and the configuration at time `now`; `jti` is the output of
`uuid.New().String()`. -/
def AccessTokenService.CreateAccessToken (cfg : Config) (user : AuthUser)
    (now : Nat) (jti : String) : JWT :=
  .signed
    { keyType := "access"
      email := user.email
      expiresAt := now + cfg.jwtExpiry
      issuedAt := now
      notBefore := now
      issuer := cfg.issuer
      subject := user.id
      jti := jti }
    cfg.jwtSecret

/-- `AccessTokenService.VerifyAccessToken`: returns `(claims, error)` as the
Go function does.  If the parse error is `ErrTokenExpired`, the parsed claims
are returned together with the error; any other parse error returns nil
claims. -/
def AccessTokenService.VerifyAccessToken (cfg : Config) (tok : JWT) (now : Nat) :
    Option Claim × Option JWTErr :=
  match jwtParseWithClaims tok cfg.jwtSecret now with
  | (c, some .expired) => (c, some .expired)
  | (_, some e) => (none, some e)
  | (some c, none) => (some c, none)
  | (none, none) => (none, some .invalidClaim)

@[simp] theorem get_set_self (s : Store) (k : Key) (v : String) (t : Option Nat) :
    Store.get (Store.set s k v t) k = some ⟨v, t⟩ := by
  simp [Store.get, Store.set]

@[simp] theorem get_set_ne (s : Store) {k k2 : Key} (v : String) (t : Option Nat)
    (h : k2 ≠ k) : Store.get (Store.set s k v t) k2 = Store.get s k2 := by
  simp [Store.get, Store.set, h]

@[simp] theorem get_del_self (s : Store) (k : Key) :
    Store.get (Store.del s k) k = none := by
  simp [Store.get, Store.del]

@[simp] theorem get_del_ne (s : Store) {k k2 : Key} (h : k2 ≠ k) :
    Store.get (Store.del s k) k2 = Store.get s k2 := by
  simp [Store.get, Store.del, h]

theorem atoi_empty : atoi "" = none := by decide

/-- C1: with an attempts counter at or above 5, `VerifyOTP` on any
correctly-shaped code (including the correct one — the statement quantifies
over every valid `otp`) fails with the `RateLimited` ("max attempts
exceeded") error, the store is left completely unchanged (no counter
mutation), and — second conjunct — the stored hash is never read: even when
every store command after the counter read is poisoned to fail, the result
is still the rate-limit error, not a store error. -/
theorem verifyOTP_rateLimited_locksOut (svc : OTPService) (u : Int)
    (otp v : String) (t : Option Nat) (k : Int) (s : Store)
    (hu : 0 < u) (hshape : isOTPValid otp = true)
    (hatt : Store.get s (otpAttemptsKey u) = some ⟨v, t⟩)
    (hv : atoi v = some k) (hk : 5 ≤ k) :
    svc.VerifyOTP u otp ⟨s, []⟩ = (.error .maxAttemptsExceeded, ⟨s, []⟩)
    ∧ (svc.VerifyOTP u otp ⟨s, [false, true]⟩).1 = .error .maxAttemptsExceeded := by
  have h0 : ¬ (u ≤ 0) := by omega
  have hvne : v ≠ "" := by
    intro he; rw [he, atoi_empty] at hv; exact Option.noConfusion hv
  have hk2 : maxAttempts ≤ k := hk
  constructor <;>
    simp [OTPService.VerifyOTP, OTPService.getAttempts, OTPService.attemptsGuard,
      rGet, Sys.takeFault, h0, hshape, hatt, hv, hvne, hk2]

def storeC1 : Store := fun k =>
  if k = otpAttemptsKey 7 then some ⟨"5", some 600⟩
  else if k = otpKey 7 then some ⟨idHasher.hash "123456", some 600⟩
  else none

/-- Witness for C1: subject 7 is locked (counter "5") while the stored hash
matches the submitted code "123456"; verification is still refused. -/
theorem verifyOTP_rateLimited_locksOut_witness :
    (0 : Int) < 7 ∧ isOTPValid "123456" = true
    ∧ Store.get storeC1 (otpAttemptsKey 7) = some ⟨"5", some 600⟩
    ∧ atoi "5" = some 5 ∧ (5 : Int) ≤ 5
    ∧ (OTPService.VerifyOTP ⟨idHasher, 600⟩ 7 "123456" ⟨storeC1, []⟩
          = (.error .maxAttemptsExceeded, ⟨storeC1, []⟩)
        ∧ (OTPService.VerifyOTP ⟨idHasher, 600⟩ 7 "123456" ⟨storeC1, [false, true]⟩).1
          = .error .maxAttemptsExceeded) :=
  ⟨by decide, by decide, by decide, by decide, by decide,
    verifyOTP_rateLimited_locksOut ⟨idHasher, 600⟩ 7 "123456" "5" (some 600) 5 storeC1
      (by decide) (by decide) (by decide) (by decide) (by decide)⟩

@[simp] theorem otpKey_ne_attemptsKey (u u2 : Int) : otpKey u ≠ otpAttemptsKey u2 := by
  simp [otpKey, otpAttemptsKey]

@[simp] theorem attemptsKey_ne_otpKey (u u2 : Int) : otpAttemptsKey u ≠ otpKey u2 := by
  simp [otpKey, otpAttemptsKey]

/-- C2: with an active OTP (stored hash of `code`) and fewer than 5 recorded
failed attempts (counter absent or parsing below 5), `VerifyOTP` with the
correct code returns `true` and the resulting store is exactly the input
store with both the hash key and the attempts key deleted (single-use
consumption, and no counter increment on success); an immediately repeated
`VerifyOTP` with the same code then returns `false`. -/
theorem verifyOTP_correct_code_single_use (svc : OTPService) (u : Int)
    (code : String) (t : Option Nat) (s : Store)
    (hu : 0 < u) (hshape : isOTPValid code = true)
    (hchk : svc.hasher.checkHash code (svc.hasher.hash code) = true)
    (hhash : Store.get s (otpKey u) = some ⟨svc.hasher.hash code, t⟩)
    (hatt : Store.get s (otpAttemptsKey u) = none
      ∨ ∃ v t2 k, Store.get s (otpAttemptsKey u) = some ⟨v, t2⟩
          ∧ atoi v = some k ∧ k < 5) :
    svc.VerifyOTP u code ⟨s, []⟩
      = (.ok true, ⟨Store.del (Store.del s (otpKey u)) (otpAttemptsKey u), []⟩)
    ∧ (svc.VerifyOTP u code
        ⟨Store.del (Store.del s (otpKey u)) (otpAttemptsKey u), []⟩).1 = .ok false := by
  have h0 : ¬ (u ≤ 0) := by omega
  constructor
  · rcases hatt with hatt | ⟨v, t2, k, hatt, hv, hk⟩
    · simp [OTPService.VerifyOTP, OTPService.getAttempts, OTPService.attemptsGuard,
        OTPService.RevokeOTP, OTPService.revokeAttempts, rGet, rDel, Sys.takeFault,
        h0, hshape, hatt, hhash, hchk]
    · have hvne : v ≠ "" := by
        intro he; rw [he, atoi_empty] at hv; exact Option.noConfusion hv
      have hk5 : ¬ (maxAttempts ≤ k) := by simp only [maxAttempts]; omega
      simp [OTPService.VerifyOTP, OTPService.getAttempts, OTPService.attemptsGuard,
        OTPService.RevokeOTP, OTPService.revokeAttempts, rGet, rDel, Sys.takeFault,
        h0, hshape, hatt, hv, hvne, hk5, hhash, hchk]
  · simp [OTPService.VerifyOTP, OTPService.getAttempts, OTPService.attemptsGuard,
      OTPService.incrementAttempts, rGet, rExists, rSet, Sys.takeFault, h0, hshape]

def storeC2 : Store := fun k =>
  if k = otpKey 3 then some ⟨idHasher.hash "123456", some 600⟩
  else if k = otpAttemptsKey 3 then some ⟨"2", some 600⟩
  else none

/-- Witness for C2: subject 3 has the hash of "123456" stored and 2 failed
attempts recorded; verifying "123456" succeeds once and consumes the code. -/
theorem verifyOTP_correct_code_single_use_witness :
    (0 : Int) < 3 ∧ isOTPValid "123456" = true
    ∧ idHasher.checkHash "123456" (idHasher.hash "123456") = true
    ∧ Store.get storeC2 (otpKey 3) = some ⟨idHasher.hash "123456", some 600⟩
    ∧ (Store.get storeC2 (otpAttemptsKey 3) = none
        ∨ ∃ v t2 k, Store.get storeC2 (otpAttemptsKey 3) = some ⟨v, t2⟩
            ∧ atoi v = some k ∧ k < 5)
    ∧ (OTPService.VerifyOTP ⟨idHasher, 600⟩ 3 "123456" ⟨storeC2, []⟩
          = (.ok true, ⟨Store.del (Store.del storeC2 (otpKey 3)) (otpAttemptsKey 3), []⟩)
        ∧ (OTPService.VerifyOTP ⟨idHasher, 600⟩ 3 "123456"
            ⟨Store.del (Store.del storeC2 (otpKey 3)) (otpAttemptsKey 3), []⟩).1
          = .ok false) :=
  ⟨by decide, by decide, by decide, by decide,
    Or.inr ⟨"2", some 600, 2, by decide, by decide, by decide⟩,
    verifyOTP_correct_code_single_use ⟨idHasher, 600⟩ 3 "123456" (some 600) storeC2
      (by decide) (by decide) (by decide) (by decide)
      (Or.inr ⟨"2", some 600, 2, by decide, by decide, by decide⟩)⟩

/-- C3: if the attempts-counter reset fails after the hash was written
(fault trace: `SET` hash ok, `SET` counter fails, rollback `DEL` either way),
`CreateOTP` surfaces the counter-reset error wrapped and returns no code;
when the best-effort rollback delete succeeds, the just-written hash key is
gone and no other key was touched; and on ANY fault trace, a successful
`CreateOTP` leaves the hash stored together with a freshly reset counter
(value "0", same configured TTL). -/
theorem createOTP_rollback_on_reset_failure (svc : OTPService) (u : Int)
    (otp : String) (s : Store) (b : Bool) (hu : 0 < u) :
    (svc.CreateOTP u otp ⟨s, [false, true, b]⟩).1
        = .error (.failedResetAttempts .storeFailure)
    ∧ (b = false →
        Store.get (svc.CreateOTP u otp ⟨s, [false, true, b]⟩).2.store (otpKey u) = none
        ∧ ∀ k2, k2 ≠ otpKey u →
            Store.get (svc.CreateOTP u otp ⟨s, [false, true, b]⟩).2.store k2
              = Store.get s k2)
    ∧ (∀ fs c m2, svc.CreateOTP u otp ⟨s, fs⟩ = (.ok c, m2) →
        c = otp
        ∧ Store.get m2.store (otpKey u) = some ⟨svc.hasher.hash otp, some svc.duration⟩
        ∧ Store.get m2.store (otpAttemptsKey u) = some ⟨"0", some svc.duration⟩) := by
  have h0 : ¬ (u ≤ 0) := by omega
  refine ⟨?_, ?_, ?_⟩
  · simp [OTPService.CreateOTP, OTPService.resetAttempts, rSet, rDel, Sys.takeFault, h0]
  · intro hb
    subst hb
    constructor
    · simp [OTPService.CreateOTP, OTPService.resetAttempts, rSet, rDel, Sys.takeFault, h0]
    · intro k2 hk2
      simp [OTPService.CreateOTP, OTPService.resetAttempts, rSet, rDel, Sys.takeFault,
        h0, hk2]
  · intro fs c m2 h
    rcases fs with _ | ⟨b1, fs⟩
    · simp [OTPService.CreateOTP, OTPService.resetAttempts, rSet, Sys.takeFault, h0] at h
      obtain ⟨hc, hm⟩ := h
      subst hm
      simp [hc]
    · cases b1
      · rcases fs with _ | ⟨b2, fs⟩
        · simp [OTPService.CreateOTP, OTPService.resetAttempts, rSet, Sys.takeFault,
            h0] at h
          obtain ⟨hc, hm⟩ := h
          subst hm
          simp [hc]
        · cases b2
          · simp [OTPService.CreateOTP, OTPService.resetAttempts, rSet, Sys.takeFault,
              h0] at h
            obtain ⟨hc, hm⟩ := h
            subst hm
            simp [hc]
          · simp [OTPService.CreateOTP, OTPService.resetAttempts, rSet, rDel,
              Sys.takeFault, h0] at h
      · simp [OTPService.CreateOTP, rSet, Sys.takeFault, h0] at h

/-- Witness for C3 at subject 5 on the empty store with a succeeding
rollback delete. -/
theorem createOTP_rollback_on_reset_failure_witness :
    (0 : Int) < 5
    ∧ ((OTPService.CreateOTP ⟨idHasher, 600⟩ 5 "654321" ⟨Store.empty, [false, true, false]⟩).1
          = .error (.failedResetAttempts .storeFailure)
        ∧ (false = false →
            Store.get (OTPService.CreateOTP ⟨idHasher, 600⟩ 5 "654321"
                ⟨Store.empty, [false, true, false]⟩).2.store (otpKey 5) = none
            ∧ ∀ k2, k2 ≠ otpKey 5 →
                Store.get (OTPService.CreateOTP ⟨idHasher, 600⟩ 5 "654321"
                    ⟨Store.empty, [false, true, false]⟩).2.store k2
                  = Store.get Store.empty k2)
        ∧ (∀ fs c m2,
            OTPService.CreateOTP ⟨idHasher, 600⟩ 5 "654321" ⟨Store.empty, fs⟩ = (.ok c, m2) →
            c = "654321"
            ∧ Store.get m2.store (otpKey 5)
                = some ⟨Hasher.hash idHasher "654321", some 600⟩
            ∧ Store.get m2.store (otpAttemptsKey 5) = some ⟨"0", some 600⟩)) :=
  ⟨by decide,
    createOTP_rollback_on_reset_failure ⟨idHasher, 600⟩ 5 "654321" Store.empty false
      (by decide)⟩

/-- C4: `incrementAttempts` checks existence first.  If the counter key is
absent it performs one single `SET` that creates the key with value "1" AND
the manager's configured TTL and returns 1; if present it performs one atomic
`INCR` returning the new count, the entry keeping whatever TTL it already
carried — so the operation that creates the counter always attaches a TTL in
the same write, and a counter never comes into existence without one. -/
theorem incrementAttempts_ttl_invariant (svc : OTPService) (u : Int) (s : Store)
    (hu : 0 < u) :
    (Store.get s (otpAttemptsKey u) = none →
      svc.incrementAttempts u ⟨s, []⟩
        = (.ok 1, ⟨Store.set s (otpAttemptsKey u) "1" (some svc.duration), []⟩))
    ∧ (∀ v tl n, Store.get s (otpAttemptsKey u) = some ⟨v, tl⟩ → atoi v = some n →
        svc.incrementAttempts u ⟨s, []⟩
          = (.ok (n + 1), ⟨Store.set s (otpAttemptsKey u) (toString (n + 1)) tl, []⟩)) := by
  have h0 : ¬ (u ≤ 0) := by omega
  constructor
  · intro hatt
    simp [OTPService.incrementAttempts, rExists, rSet, Sys.takeFault, h0, hatt]
  · intro v tl n hatt hv
    simp [OTPService.incrementAttempts, rExists, rIncr, Sys.takeFault, h0, hatt, hv]

def storeC4 : Store := fun k =>
  if k = otpAttemptsKey 2 then some ⟨"3", some 600⟩ else none

/-- Witness for C4: creating the counter on an empty store attaches the TTL
in the creating write; incrementing the existing counter "3" yields 4 and
keeps its TTL. -/
theorem incrementAttempts_ttl_invariant_witness :
    (0 : Int) < 2
    ∧ OTPService.incrementAttempts ⟨idHasher, 600⟩ 2 ⟨Store.empty, []⟩
        = (.ok 1, ⟨Store.set Store.empty (otpAttemptsKey 2) "1" (some 600), []⟩)
    ∧ OTPService.incrementAttempts ⟨idHasher, 600⟩ 2 ⟨storeC4, []⟩
        = (.ok ((3 : Int) + 1),
            ⟨Store.set storeC4 (otpAttemptsKey 2) (toString ((3 : Int) + 1)) (some 600), []⟩) :=
  ⟨by decide,
    (incrementAttempts_ttl_invariant ⟨idHasher, 600⟩ 2 Store.empty (by decide)).1 rfl,
    (incrementAttempts_ttl_invariant ⟨idHasher, 600⟩ 2 storeC4 (by decide)).2
      "3" (some 600) 3 (by decide) (by decide)⟩

theorem length_zero_iff_empty (s : String) : s.length = 0 ↔ s = "" := by
  cases s with
  | mk data => simp [String.length, List.length_eq_zero, String.ext_iff]

/-- C5: `RevokePasswordResetToken` with a valid subject and a well-formed
token fetches the stored value first: absent → `NotFound` error with the
store untouched; present but different from the supplied token → `Mismatch`
error with the store untouched (so the original token still verifies `true`
afterward); equal → the key is deleted. -/
theorem revokePasswordReset_requires_match (prs : PasswordResetService)
    (u token : String) (s : Store)
    (hu : u ≠ "") (hne : token ≠ "") (hlen : token.length ≤ 32) :
    (Store.get s (passwordResetKey u) = none →
      prs.RevokePasswordResetToken u token ⟨s, []⟩ = (.error .tokenNotFound, ⟨s, []⟩))
    ∧ (∀ stored tl, Store.get s (passwordResetKey u) = some ⟨stored, tl⟩ →
        stored ≠ token →
        prs.RevokePasswordResetToken u token ⟨s, []⟩ = (.error .tokenMismatch, ⟨s, []⟩)
        ∧ (stored ≠ "" → stored.length ≤ 32 →
            (prs.VerifyPasswordResetToken u stored ⟨s, []⟩).1 = .ok true))
    ∧ (∀ tl, Store.get s (passwordResetKey u) = some ⟨token, tl⟩ →
        prs.RevokePasswordResetToken u token ⟨s, []⟩
          = (.ok (), ⟨Store.del s (passwordResetKey u), []⟩)) := by
  have h1 : ¬ (token.length = 0) := by
    simpa [length_zero_iff_empty] using hne
  have h2 : ¬ (token.length > passwordResetTokenMaxLength) := by
    simp only [passwordResetTokenMaxLength]; omega
  refine ⟨?_, ?_, ?_⟩
  · intro hget
    simp [PasswordResetService.RevokePasswordResetToken, isIncomingTokenValid,
      rGet, Sys.takeFault, hu, h1, h2, hget]
  · intro stored tl hget hmm
    constructor
    · simp [PasswordResetService.RevokePasswordResetToken, isIncomingTokenValid,
        rGet, Sys.takeFault, hu, h1, h2, hget, hmm]
    · intro hsne hslen
      have h3 : ¬ (stored.length = 0) := by
        simpa [length_zero_iff_empty] using hsne
      have h4 : ¬ (stored.length > passwordResetTokenMaxLength) := by
        simp only [passwordResetTokenMaxLength]; omega
      simp [PasswordResetService.VerifyPasswordResetToken, isIncomingTokenValid,
        rGet, Sys.takeFault, hu, h3, h4, hget]
  · intro tl hget
    simp [PasswordResetService.RevokePasswordResetToken, isIncomingTokenValid,
      rGet, rDel, Sys.takeFault, hu, h1, h2, hget]

def storeC5 : Store := fun k =>
  if k = passwordResetKey "user1" then some ⟨"SECRETTOKEN", some 600⟩ else none

/-- Witness for C5: a wrong token is refused with `Mismatch` and the stored
token still verifies; the matching token deletes the key; an absent key
yields `NotFound`. -/
theorem revokePasswordReset_requires_match_witness :
    PasswordResetService.RevokePasswordResetToken ⟨600⟩ "user1" "WRONGTOKEN" ⟨storeC5, []⟩
        = (.error .tokenMismatch, ⟨storeC5, []⟩)
    ∧ (PasswordResetService.VerifyPasswordResetToken ⟨600⟩ "user1" "SECRETTOKEN"
        ⟨storeC5, []⟩).1 = .ok true
    ∧ PasswordResetService.RevokePasswordResetToken ⟨600⟩ "user1" "SECRETTOKEN" ⟨storeC5, []⟩
        = (.ok (), ⟨Store.del storeC5 (passwordResetKey "user1"), []⟩)
    ∧ PasswordResetService.RevokePasswordResetToken ⟨600⟩ "user1" "SECRETTOKEN"
        ⟨Store.empty, []⟩ = (.error .tokenNotFound, ⟨Store.empty, []⟩) := by
  have h1 := (revokePasswordReset_requires_match ⟨600⟩ "user1" "WRONGTOKEN" storeC5
    (by decide) (by decide) (by decide)).2.1 "SECRETTOKEN" (some 600) (by decide) (by decide)
  have h2 := (revokePasswordReset_requires_match ⟨600⟩ "user1" "SECRETTOKEN" storeC5
    (by decide) (by decide) (by decide)).2.2 (some 600) (by decide)
  have h3 := (revokePasswordReset_requires_match ⟨600⟩ "user1" "SECRETTOKEN" Store.empty
    (by decide) (by decide) (by decide)).1 rfl
  exact ⟨h1.1, h1.2 (by decide) (by decide), h2, h3⟩

/-- C6: for single-cardinality managers, two successive creates for the same
subject write unconditionally to the same subject-scoped key, so the second
create invalidates the first credential: afterwards `verify` with the first
value returns `false` and with the second value returns `true` — shown for
`PasswordResetService.CreatePasswordResetToken` (distinct generated tokens
`v1 ≠ v2`) and for `OTPService.CreateOTP` (distinct generated codes
`c1 ≠ c2`, with the hasher sound on `c2` and rejecting `c1` against the hash
of `c2`). -/
theorem double_create_invalidates_first
    (prs : PasswordResetService) (svc : OTPService)
    (upr v1 v2 : String) (uo : Int) (c1 c2 : String) (s s2 : Store)
    (hupr : upr ≠ "") (hv12 : v1 ≠ v2)
    (hv1ne : v1 ≠ "") (hv1len : v1.length ≤ 32)
    (hv2ne : v2 ≠ "") (hv2len : v2.length ≤ 32)
    (huo : 0 < uo) (hc1 : isOTPValid c1 = true) (hc2 : isOTPValid c2 = true)
    (hchk2 : svc.hasher.checkHash c2 (svc.hasher.hash c2) = true)
    (hchk1 : svc.hasher.checkHash c1 (svc.hasher.hash c2) = false) :
    ((prs.VerifyPasswordResetToken upr v1
        (prs.CreatePasswordResetToken upr v2
          (prs.CreatePasswordResetToken upr v1 ⟨s, []⟩).2).2).1 = .ok false
      ∧ (prs.VerifyPasswordResetToken upr v2
          (prs.CreatePasswordResetToken upr v2
            (prs.CreatePasswordResetToken upr v1 ⟨s, []⟩).2).2).1 = .ok true)
    ∧ ((svc.VerifyOTP uo c1
          (svc.CreateOTP uo c2 (svc.CreateOTP uo c1 ⟨s2, []⟩).2).2).1 = .ok false
      ∧ (svc.VerifyOTP uo c2
          (svc.CreateOTP uo c2 (svc.CreateOTP uo c1 ⟨s2, []⟩).2).2).1 = .ok true) := by
  have h0 : ¬ (uo ≤ 0) := by omega
  have hne21 : v2 ≠ v1 := Ne.symm hv12
  have h1 : ¬ (v1.length = 0) := by simpa [length_zero_iff_empty] using hv1ne
  have h2 : ¬ (v1.length > passwordResetTokenMaxLength) := by
    simp only [passwordResetTokenMaxLength]; omega
  have h3 : ¬ (v2.length = 0) := by simpa [length_zero_iff_empty] using hv2ne
  have h4 : ¬ (v2.length > passwordResetTokenMaxLength) := by
    simp only [passwordResetTokenMaxLength]; omega
  have ha0 : atoi "0" = some 0 := by decide
  have ha5 : ¬ (maxAttempts ≤ (0 : Int)) := by decide
  refine ⟨⟨?_, ?_⟩, ?_, ?_⟩
  · simp [PasswordResetService.CreatePasswordResetToken,
      PasswordResetService.VerifyPasswordResetToken, isIncomingTokenValid,
      rSet, rGet, Sys.takeFault, hupr, h1, h2, hne21]
  · simp [PasswordResetService.CreatePasswordResetToken,
      PasswordResetService.VerifyPasswordResetToken, isIncomingTokenValid,
      rSet, rGet, Sys.takeFault, hupr, h3, h4]
  · simp [OTPService.CreateOTP, OTPService.VerifyOTP, OTPService.getAttempts,
      OTPService.attemptsGuard, OTPService.resetAttempts, OTPService.incrementAttempts,
      rSet, rGet, rExists, rIncr, Sys.takeFault, h0, hc1, ha0, ha5, hchk1]
  · simp [OTPService.CreateOTP, OTPService.VerifyOTP, OTPService.getAttempts,
      OTPService.attemptsGuard, OTPService.resetAttempts, OTPService.RevokeOTP,
      OTPService.revokeAttempts, rSet, rGet, rDel, Sys.takeFault, h0, hc2, ha0,
      ha5, hchk2]

/-- Witness for C6: subject "u1" with reset tokens "AAAA" then "BBBB", and
subject 9 with OTP codes "111111" then "222222", on the empty store. -/
theorem double_create_invalidates_first_witness :
    ((PasswordResetService.VerifyPasswordResetToken ⟨600⟩ "u1" "AAAA"
        (PasswordResetService.CreatePasswordResetToken ⟨600⟩ "u1" "BBBB"
          (PasswordResetService.CreatePasswordResetToken ⟨600⟩ "u1" "AAAA"
            ⟨Store.empty, []⟩).2).2).1 = .ok false
      ∧ (PasswordResetService.VerifyPasswordResetToken ⟨600⟩ "u1" "BBBB"
          (PasswordResetService.CreatePasswordResetToken ⟨600⟩ "u1" "BBBB"
            (PasswordResetService.CreatePasswordResetToken ⟨600⟩ "u1" "AAAA"
              ⟨Store.empty, []⟩).2).2).1 = .ok true)
    ∧ ((OTPService.VerifyOTP ⟨idHasher, 600⟩ 9 "111111"
          (OTPService.CreateOTP ⟨idHasher, 600⟩ 9 "222222"
            (OTPService.CreateOTP ⟨idHasher, 600⟩ 9 "111111"
              ⟨Store.empty, []⟩).2).2).1 = .ok false
      ∧ (OTPService.VerifyOTP ⟨idHasher, 600⟩ 9 "222222"
          (OTPService.CreateOTP ⟨idHasher, 600⟩ 9 "222222"
            (OTPService.CreateOTP ⟨idHasher, 600⟩ 9 "111111"
              ⟨Store.empty, []⟩).2).2).1 = .ok true) :=
  double_create_invalidates_first ⟨600⟩ ⟨idHasher, 600⟩ "u1" "AAAA" "BBBB" 9
    "111111" "222222" Store.empty Store.empty
    (by decide) (by decide) (by decide) (by decide) (by decide) (by decide)
    (by decide) (by decide) (by decide) (by decide) (by decide)

@[simp] theorem refreshKey_inj (u u2 : Int) (t t2 : String) :
    refreshKey u t = refreshKey u2 t2 ↔ u = u2 ∧ t = t2 := by
  simp [refreshKey]

/-- C7: `CreateRefreshToken` performs exactly one `SET` of the composite key
`refresh:{subject}:{value}` (every other key is untouched); two successive
creates with distinct generated tokens both verify `true`; and
`RevokeRefreshToken` of the first token deletes only that exact key, leaving
the second token verifying `true` while the first verifies `false`. -/
theorem refresh_create_writes_only_its_key (rts : RefreshTokenService)
    (u : Int) (t1 t2 : String) (s : Store)
    (hu : 0 < u) (h12 : t1 ≠ t2)
    (h1ne : t1 ≠ "") (h1len : t1.length ≤ 255)
    (h2ne : t2 ≠ "") (h2len : t2.length ≤ 255) :
    rts.CreateRefreshToken u t1 ⟨s, []⟩
      = (.ok t1, ⟨Store.set s (refreshKey u t1) "1" (some rts.duration), []⟩)
    ∧ (∀ k, k ≠ refreshKey u t1 →
        Store.get (Store.set s (refreshKey u t1) "1" (some rts.duration)) k
          = Store.get s k)
    ∧ ((rts.VerifyRefreshToken u t1
          (rts.CreateRefreshToken u t2
            (rts.CreateRefreshToken u t1 ⟨s, []⟩).2).2).1 = .ok true
      ∧ (rts.VerifyRefreshToken u t2
          (rts.CreateRefreshToken u t2
            (rts.CreateRefreshToken u t1 ⟨s, []⟩).2).2).1 = .ok true)
    ∧ rts.RevokeRefreshToken t1 u
          (rts.CreateRefreshToken u t2 (rts.CreateRefreshToken u t1 ⟨s, []⟩).2).2
        = (.ok (), ⟨Store.del ((rts.CreateRefreshToken u t2
            (rts.CreateRefreshToken u t1 ⟨s, []⟩).2).2).store (refreshKey u t1), []⟩)
    ∧ ((rts.VerifyRefreshToken u t1
          (rts.RevokeRefreshToken t1 u
            (rts.CreateRefreshToken u t2
              (rts.CreateRefreshToken u t1 ⟨s, []⟩).2).2).2).1 = .ok false
      ∧ (rts.VerifyRefreshToken u t2
          (rts.RevokeRefreshToken t1 u
            (rts.CreateRefreshToken u t2
              (rts.CreateRefreshToken u t1 ⟨s, []⟩).2).2).2).1 = .ok true) := by
  have h0 : ¬ (u ≤ 0) := by omega
  have h1 : ¬ (t1.length = 0) := by simpa [length_zero_iff_empty] using h1ne
  have h2 : ¬ (t1.length > refreshTokenMaxLength) := by
    simp only [refreshTokenMaxLength]; omega
  have h3 : ¬ (t2.length = 0) := by simpa [length_zero_iff_empty] using h2ne
  have h4 : ¬ (t2.length > refreshTokenMaxLength) := by
    simp only [refreshTokenMaxLength]; omega
  have h21 : t2 ≠ t1 := Ne.symm h12
  refine ⟨?_, fun k hk => get_set_ne s "1" (some rts.duration) hk, ⟨?_, ?_⟩, ?_, ?_, ?_⟩ <;>
    simp [RefreshTokenService.CreateRefreshToken, RefreshTokenService.VerifyRefreshToken,
      RefreshTokenService.RevokeRefreshToken, isIncomingTokenValid, rSet, rGet, rDel,
      Sys.takeFault, h0, h1, h2, h3, h4, h12, h21]

/-- Witness for C7: subject 4 with tokens "TOKEN-ONE" and "TOKEN-TWO" on the
empty store. -/
theorem refresh_create_writes_only_its_key_witness :
    RefreshTokenService.CreateRefreshToken ⟨3600⟩ 4 "TOKEN-ONE" ⟨Store.empty, []⟩
      = (.ok "TOKEN-ONE",
          ⟨Store.set Store.empty (refreshKey 4 "TOKEN-ONE") "1" (some 3600), []⟩)
    ∧ (∀ k, k ≠ refreshKey 4 "TOKEN-ONE" →
        Store.get (Store.set Store.empty (refreshKey 4 "TOKEN-ONE") "1" (some 3600)) k
          = Store.get Store.empty k)
    ∧ ((RefreshTokenService.VerifyRefreshToken ⟨3600⟩ 4 "TOKEN-ONE"
          (RefreshTokenService.CreateRefreshToken ⟨3600⟩ 4 "TOKEN-TWO"
            (RefreshTokenService.CreateRefreshToken ⟨3600⟩ 4 "TOKEN-ONE"
              ⟨Store.empty, []⟩).2).2).1 = .ok true
      ∧ (RefreshTokenService.VerifyRefreshToken ⟨3600⟩ 4 "TOKEN-TWO"
          (RefreshTokenService.CreateRefreshToken ⟨3600⟩ 4 "TOKEN-TWO"
            (RefreshTokenService.CreateRefreshToken ⟨3600⟩ 4 "TOKEN-ONE"
              ⟨Store.empty, []⟩).2).2).1 = .ok true)
    ∧ RefreshTokenService.RevokeRefreshToken ⟨3600⟩ "TOKEN-ONE" 4
          (RefreshTokenService.CreateRefreshToken ⟨3600⟩ 4 "TOKEN-TWO"
            (RefreshTokenService.CreateRefreshToken ⟨3600⟩ 4 "TOKEN-ONE"
              ⟨Store.empty, []⟩).2).2
        = (.ok (), ⟨Store.del ((RefreshTokenService.CreateRefreshToken ⟨3600⟩ 4 "TOKEN-TWO"
            (RefreshTokenService.CreateRefreshToken ⟨3600⟩ 4 "TOKEN-ONE"
              ⟨Store.empty, []⟩).2).2).store (refreshKey 4 "TOKEN-ONE"), []⟩)
    ∧ ((RefreshTokenService.VerifyRefreshToken ⟨3600⟩ 4 "TOKEN-ONE"
          (RefreshTokenService.RevokeRefreshToken ⟨3600⟩ "TOKEN-ONE" 4
            (RefreshTokenService.CreateRefreshToken ⟨3600⟩ 4 "TOKEN-TWO"
              (RefreshTokenService.CreateRefreshToken ⟨3600⟩ 4 "TOKEN-ONE"
                ⟨Store.empty, []⟩).2).2).2).1 = .ok false
      ∧ (RefreshTokenService.VerifyRefreshToken ⟨3600⟩ 4 "TOKEN-TWO"
          (RefreshTokenService.RevokeRefreshToken ⟨3600⟩ "TOKEN-ONE" 4
            (RefreshTokenService.CreateRefreshToken ⟨3600⟩ 4 "TOKEN-TWO"
              (RefreshTokenService.CreateRefreshToken ⟨3600⟩ 4 "TOKEN-ONE"
                ⟨Store.empty, []⟩).2).2).2).1 = .ok true) :=
  refresh_create_writes_only_its_key ⟨3600⟩ 4 "TOKEN-ONE" "TOKEN-TWO" Store.empty
    (by decide) (by decide) (by decide) (by decide) (by decide) (by decide)

/-- C8: verifying a token that was correctly signed with the configured
secret but is past its expiry beyond the 5-second leeway returns BOTH the
parsed claims — whose `Subject` is the `id` of the principal used at issue
time — and the `Expired` error; any other validation failure (malformed
structure, wrong signing secret) returns nil claims and an error. -/
theorem verifyAccessToken_expired_returns_claims (cfg : Config) (user : AuthUser)
    (now1 now2 : Nat) (jti : String)
    (hexp : now1 + cfg.jwtExpiry + jwtLeeway ≤ now2) :
    AccessTokenService.VerifyAccessToken cfg
        (AccessTokenService.CreateAccessToken cfg user now1 jti) now2
      = (some
          { keyType := "access", email := user.email,
            expiresAt := now1 + cfg.jwtExpiry, issuedAt := now1, notBefore := now1,
            issuer := cfg.issuer, subject := user.id, jti := jti },
         some .expired)
    ∧ ((AccessTokenService.VerifyAccessToken cfg
          (AccessTokenService.CreateAccessToken cfg user now1 jti) now2).1.map
            Claim.subject) = some user.id
    ∧ AccessTokenService.VerifyAccessToken cfg .malformed now2 = (none, some .malformed)
    ∧ (∀ c sec, sec ≠ cfg.jwtSecret →
        AccessTokenService.VerifyAccessToken cfg (.signed c sec) now2
          = (none, some .signatureInvalid)) := by
  refine ⟨?_, ?_, ?_, ?_⟩
  · simp [AccessTokenService.VerifyAccessToken, AccessTokenService.CreateAccessToken,
      jwtParseWithClaims, hexp]
  · simp [AccessTokenService.VerifyAccessToken, AccessTokenService.CreateAccessToken,
      jwtParseWithClaims, hexp]
  · simp [AccessTokenService.VerifyAccessToken, jwtParseWithClaims]
  · intro c sec hsec
    simp [AccessTokenService.VerifyAccessToken, jwtParseWithClaims, hsec]

/-- Witness for C8: a token issued at time 1000 with a 60-second expiry,
verified at time 1065 (expiry 1060 plus the 5-second leeway). -/
theorem verifyAccessToken_expired_returns_claims_witness :
    1000 + 60 + jwtLeeway ≤ 1065
    ∧ (AccessTokenService.VerifyAccessToken ⟨"issuer", "secret", 60⟩
          (AccessTokenService.CreateAccessToken ⟨"issuer", "secret", 60⟩
            ⟨"uid-1", "user@example.com"⟩ 1000 "jti-1") 1065
        = (some
            { keyType := "access", email := "user@example.com",
              expiresAt := 1000 + 60, issuedAt := 1000, notBefore := 1000,
              issuer := "issuer", subject := "uid-1", jti := "jti-1" },
           some .expired)
      ∧ ((AccessTokenService.VerifyAccessToken ⟨"issuer", "secret", 60⟩
            (AccessTokenService.CreateAccessToken ⟨"issuer", "secret", 60⟩
              ⟨"uid-1", "user@example.com"⟩ 1000 "jti-1") 1065).1.map Claim.subject)
          = some "uid-1"
      ∧ AccessTokenService.VerifyAccessToken ⟨"issuer", "secret", 60⟩ .malformed 1065
          = (none, some .malformed)
      ∧ (∀ c sec, sec ≠ "secret" →
          AccessTokenService.VerifyAccessToken ⟨"issuer", "secret", 60⟩
            (.signed c sec) 1065 = (none, some .signatureInvalid))) :=
  ⟨by decide,
    verifyAccessToken_expired_returns_claims ⟨"issuer", "secret", 60⟩
      ⟨"uid-1", "user@example.com"⟩ 1000 1065 "jti-1" (by decide)⟩

/-- C9: `RevokeRefreshToken` (Redis implementation, the current backend) is
one idempotent `DEL` of the exact key: it always succeeds on a well-formed
input, revoking an absent/already-revoked/expired token leaves the store
completely unchanged, and revoking the same (subject, value) pair twice has
the same effect on the store as revoking it once. -/
theorem revokeRefresh_idempotent (rts : RefreshTokenService) (u : Int)
    (t : String) (s : Store)
    (hu : 0 < u) (hne : t ≠ "") (hlen : t.length ≤ 255) :
    rts.RevokeRefreshToken t u ⟨s, []⟩ = (.ok (), ⟨Store.del s (refreshKey u t), []⟩)
    ∧ (Store.get s (refreshKey u t) = none →
        rts.RevokeRefreshToken t u ⟨s, []⟩ = (.ok (), ⟨s, []⟩))
    ∧ rts.RevokeRefreshToken t u (rts.RevokeRefreshToken t u ⟨s, []⟩).2
        = (.ok (), (rts.RevokeRefreshToken t u ⟨s, []⟩).2) := by
  have h0 : ¬ (u ≤ 0) := by omega
  have h1 : ¬ (t.length = 0) := by simpa [length_zero_iff_empty] using hne
  have h2 : ¬ (t.length > refreshTokenMaxLength) := by
    simp only [refreshTokenMaxLength]; omega
  have hrev : rts.RevokeRefreshToken t u ⟨s, []⟩
      = (.ok (), ⟨Store.del s (refreshKey u t), []⟩) := by
    simp [RefreshTokenService.RevokeRefreshToken, isIncomingTokenValid, rDel,
      Sys.takeFault, h0, h1, h2]
  have hdd : Store.del (Store.del s (refreshKey u t)) (refreshKey u t)
      = Store.del s (refreshKey u t) := by
    funext k2
    by_cases hk : k2 = refreshKey u t <;> simp [Store.del, hk]
  refine ⟨hrev, ?_, ?_⟩
  · intro hget
    have hs : Store.del s (refreshKey u t) = s := by
      funext k2
      by_cases hk : k2 = refreshKey u t
      · subst hk; simp [Store.del]; exact hget.symm
      · simp [Store.del, hk]
    rw [hrev, hs]
  · rw [hrev]
    simp [RefreshTokenService.RevokeRefreshToken, isIncomingTokenValid, rDel,
      Sys.takeFault, h0, h1, h2, hdd]

def storeC9 : Store := fun k =>
  if k = refreshKey 8 "LIVE-TOKEN" then some ⟨"1", some 3600⟩ else none

/-- Witness for C9: revoking a live token for subject 8, then revoking it
again (it is now absent) succeeds and changes nothing; same on an empty
store. -/
theorem revokeRefresh_idempotent_witness :
    (RefreshTokenService.RevokeRefreshToken ⟨3600⟩ "LIVE-TOKEN" 8 ⟨storeC9, []⟩
        = (.ok (), ⟨Store.del storeC9 (refreshKey 8 "LIVE-TOKEN"), []⟩)
      ∧ RefreshTokenService.RevokeRefreshToken ⟨3600⟩ "LIVE-TOKEN" 8
            (RefreshTokenService.RevokeRefreshToken ⟨3600⟩ "LIVE-TOKEN" 8 ⟨storeC9, []⟩).2
          = (.ok (),
              (RefreshTokenService.RevokeRefreshToken ⟨3600⟩ "LIVE-TOKEN" 8
                ⟨storeC9, []⟩).2))
    ∧ RefreshTokenService.RevokeRefreshToken ⟨3600⟩ "LIVE-TOKEN" 8 ⟨Store.empty, []⟩
        = (.ok (), ⟨Store.empty, []⟩) :=
  ⟨⟨(revokeRefresh_idempotent ⟨3600⟩ 8 "LIVE-TOKEN" storeC9
      (by decide) (by decide) (by decide)).1,
    (revokeRefresh_idempotent ⟨3600⟩ 8 "LIVE-TOKEN" storeC9
      (by decide) (by decide) (by decide)).2.2⟩,
    (revokeRefresh_idempotent ⟨3600⟩ 8 "LIVE-TOKEN" Store.empty
      (by decide) (by decide) (by decide)).2.1 rfl⟩

/-- C10: a correct code does not guarantee `true`.  With the stored hash
matching and the attempt budget not exhausted, running `VerifyOTP` under the
fault trace `[false, false, b1, b2]` (counter read ok, hash read ok, then
the two single-use revocation deletes controlled by `b1`/`b2`): the result
is `true` iff both deletions succeed, and any failing deletion surfaces the
store error (returned as `(false, err)` in Go).  By contrast — third
conjunct — a failure of the best-effort attempt increment after a wrong
code is swallowed and the call still returns `(false, nil)`. -/
theorem verifyOTP_true_only_if_revocation_succeeds (svc : OTPService) (u : Int)
    (code : String) (t : Option Nat) (s : Store) (b1 b2 : Bool)
    (hu : 0 < u) (hshape : isOTPValid code = true)
    (hchk : svc.hasher.checkHash code (svc.hasher.hash code) = true)
    (hhash : Store.get s (otpKey u) = some ⟨svc.hasher.hash code, t⟩)
    (hatt : Store.get s (otpAttemptsKey u) = none
      ∨ ∃ v t2 k, Store.get s (otpAttemptsKey u) = some ⟨v, t2⟩
          ∧ atoi v = some k ∧ k < 5) :
    ((svc.VerifyOTP u code ⟨s, [false, false, b1, b2]⟩).1 = .ok true
        ↔ (b1 = false ∧ b2 = false))
    ∧ ((b1 = true ∨ b2 = true) →
        (svc.VerifyOTP u code ⟨s, [false, false, b1, b2]⟩).1 = .error .storeFailure)
    ∧ (∀ code2, isOTPValid code2 = true →
        svc.hasher.checkHash code2 (svc.hasher.hash code) = false →
        (svc.VerifyOTP u code2 ⟨s, [false, false, true]⟩).1 = .ok false) := by
  have h0 : ¬ (u ≤ 0) := by omega
  refine ⟨?_, ?_, ?_⟩
  · rcases hatt with hatt | ⟨v, t2, k, hatt, hv, hk⟩
    · cases b1 <;> cases b2 <;>
        simp [OTPService.VerifyOTP, OTPService.getAttempts, OTPService.attemptsGuard,
          OTPService.RevokeOTP, OTPService.revokeAttempts, rGet, rDel, Sys.takeFault,
          h0, hshape, hhash, hchk, hatt]
    · have hvne : v ≠ "" := by
        intro he; rw [he, atoi_empty] at hv; exact Option.noConfusion hv
      have hk5 : ¬ (maxAttempts ≤ k) := by simp only [maxAttempts]; omega
      cases b1 <;> cases b2 <;>
        simp [OTPService.VerifyOTP, OTPService.getAttempts, OTPService.attemptsGuard,
          OTPService.RevokeOTP, OTPService.revokeAttempts, rGet, rDel, Sys.takeFault,
          h0, hshape, hhash, hchk, hatt, hv, hvne, hk5]
  · rcases hatt with hatt | ⟨v, t2, k, hatt, hv, hk⟩
    · cases b1 <;> cases b2 <;>
        simp [OTPService.VerifyOTP, OTPService.getAttempts, OTPService.attemptsGuard,
          OTPService.RevokeOTP, OTPService.revokeAttempts, rGet, rDel, Sys.takeFault,
          h0, hshape, hhash, hchk, hatt]
    · have hvne : v ≠ "" := by
        intro he; rw [he, atoi_empty] at hv; exact Option.noConfusion hv
      have hk5 : ¬ (maxAttempts ≤ k) := by simp only [maxAttempts]; omega
      cases b1 <;> cases b2 <;>
        simp [OTPService.VerifyOTP, OTPService.getAttempts, OTPService.attemptsGuard,
          OTPService.RevokeOTP, OTPService.revokeAttempts, rGet, rDel, Sys.takeFault,
          h0, hshape, hhash, hchk, hatt, hv, hvne, hk5]
  · intro code2 hshape2 hchk2
    rcases hatt with hatt | ⟨v, t2, k, hatt, hv, hk⟩
    · simp [OTPService.VerifyOTP, OTPService.getAttempts, OTPService.attemptsGuard,
        OTPService.incrementAttempts, rGet, rExists, Sys.takeFault, h0, hshape2,
        hhash, hchk2, hatt]
    · have hvne : v ≠ "" := by
        intro he; rw [he, atoi_empty] at hv; exact Option.noConfusion hv
      have hk5 : ¬ (maxAttempts ≤ k) := by simp only [maxAttempts]; omega
      simp [OTPService.VerifyOTP, OTPService.getAttempts, OTPService.attemptsGuard,
        OTPService.incrementAttempts, rGet, rExists, Sys.takeFault, h0, hshape2,
        hhash, hchk2, hatt, hv, hvne, hk5]

def storeC10 : Store := fun k =>
  if k = otpKey 6 then some ⟨idHasher.hash "999999", some 600⟩ else none

/-- Witness for C10: subject 6 with the correct code "999999"; the first
revocation delete is poisoned, so verification reports the store error
instead of `true`; a wrong code "000000" with a poisoned increment still
returns `false` without error. -/
theorem verifyOTP_true_only_if_revocation_succeeds_witness :
    (((OTPService.VerifyOTP ⟨idHasher, 600⟩ 6 "999999"
          ⟨storeC10, [false, false, true, false]⟩).1 = .ok true
        ↔ (true = false ∧ false = false))
      ∧ ((true = true ∨ false = true) →
          (OTPService.VerifyOTP ⟨idHasher, 600⟩ 6 "999999"
            ⟨storeC10, [false, false, true, false]⟩).1 = .error .storeFailure)
      ∧ (∀ code2, isOTPValid code2 = true →
          Hasher.checkHash idHasher code2 (Hasher.hash idHasher "999999") = false →
          (OTPService.VerifyOTP ⟨idHasher, 600⟩ 6 code2
            ⟨storeC10, [false, false, true]⟩).1 = .ok false)) :=
  verifyOTP_true_only_if_revocation_succeeds ⟨idHasher, 600⟩ 6 "999999" (some 600)
    storeC10 true false (by decide) (by decide) (by decide) (by decide) (Or.inl (by decide))

end GoToken
